import Mathlib

/-!
Shallow embedding of `mob_scrapy_redis_sentinel/dupefilter.py`: the three
request-deduplication filters (`MongoDupeFilter`, `RedisDupeFilter`,
`RedisBloomFilter`), their backing-store operations, and their lifecycle
methods.  Requests are represented by their fingerprint strings, since the
fingerprinting function is an external collaborator.  External store
semantics (Redis `SADD`/`DEL`, MongoDB find/insert/unique-index/drop,
pymongo client behavior) are modelled from the documented behavior of those
stores, which the source calls through.
-/

/-- Python exception classes that the embedded code can raise: attribute
lookup failure on a missing attribute, and pymongo's TypeError when a
`Database` object is called. `DuplicateKeyError` is kept as its own type
below because `MongoDupeFilter.request_seen` catches exactly that class. -/
inductive PyError where
  | attributeError
  | typeError
  deriving Repr, DecidableEq

/-- pymongo's `DuplicateKeyError`, raised by `insert_one` when a unique
index rejects the document. -/
inductive DuplicateKeyError where
  | mk
  deriving Repr, DecidableEq

/-- A Python logger object (only its identity matters to the embedding). -/
structure Logger where
  name : String
  deriving Repr, DecidableEq

/-- The module-level `logger = logging.getLogger(__name__)` of dupefilter.py. -/
def moduleLogger : Logger := ⟨"mob_scrapy_redis_sentinel.dupefilter"⟩

/-- Python attribute lookup: reading an attribute that is bound neither on
the instance nor anywhere in the class hierarchy raises `AttributeError`. -/
def getAttr {α : Type} (a : Option α) : Except PyError α :=
  match a with
  | none => Except.error PyError.attributeError
  | some x => Except.ok x

/-- State of the shared Redis server: each key names a set of string
members (used via `SADD`) and a bit vector, kept as the list of positions
whose bit is 1 (used via `SETBIT`/`GETBIT`).  `DEL key` removes the key
entirely, clearing both views. -/
structure RedisState where
  sets : String → List String
  bits : String → List Nat

/-- Redis commands issued by `RedisDupeFilter`, recorded as an operation
trace so that claims about *which* store operations a method performs can
be stated. -/
inductive RedisOp where
  | sadd (key fp : String)
  | del (key : String)
  deriving Repr, DecidableEq

/-- Redis `SADD key fp`: adds the member if absent and returns the number
of members actually added (`0` when already present), atomically. -/
def RedisState.sadd (st : RedisState) (key fp : String) : Nat × RedisState :=
  if fp ∈ st.sets key then (0, st)
  else (1, ⟨fun k => if k = key then fp :: st.sets key else st.sets k, st.bits⟩)

/-- Redis `DEL key`: removes the key (set members and bits alike). -/
def RedisState.del (st : RedisState) (key : String) : RedisState :=
  ⟨fun k => if k = key then [] else st.sets k,
   fun k => if k = key then [] else st.bits k⟩

/-- Redis `SETBIT key pos 1`. -/
def RedisState.setbit (st : RedisState) (key : String) (pos : Nat) : RedisState :=
  ⟨st.sets, fun k => if k = key then pos :: st.bits key else st.bits k⟩

/-- Redis `GETBIT key pos`. -/
def RedisState.getbit (st : RedisState) (key : String) (pos : Nat) : Bool :=
  (st.bits key).contains pos

/-- The duplicate-request message logged when `DUPEFILTER_DEBUG` is set
(the `%(request)s` placeholder filled in). -/
def dupMsg (request : String) : String :=
  "Filtered duplicate request: " ++ request

/-- The duplicate-request message logged once per instance lifetime when
`DUPEFILTER_DEBUG` is unset. -/
def dupMsgNoMore (request : String) : String :=
  "Filtered duplicate request " ++ request ++
    " - no more duplicates will be shown (see DUPEFILTER_DEBUG to show all duplicates)"

/-- Instance fields of `RedisDupeFilter` as set by `__init__`: the server
handle (opaque connection identity), the dedup key, the debug flag, and
the `logdupes` log-suppression flag. -/
structure RedisDupeFilter where
  server : Nat
  key : String
  debug : Bool
  logdupes : Bool
  deriving Repr, DecidableEq

/-- `RedisDupeFilter.__init__(server, key, debug)`: `logdupes` starts true. -/
def RedisDupeFilter.init (server : Nat) (key : String) (debug : Bool) : RedisDupeFilter :=
  ⟨server, key, debug, true⟩

/-- `RedisDupeFilter` binds `logger = logger` at class level, so attribute
lookup of `self.logger` succeeds with the module logger. -/
def RedisDupeFilter.loggerAttr (_ : RedisDupeFilter) : Option Logger :=
  some moduleLogger

/-- Result of `RedisDupeFilter.request_seen`: the returned boolean, the
(possibly updated) instance, the new server state, and the trace of Redis
operations issued. -/
structure RedisSeen where
  seen : Bool
  self : RedisDupeFilter
  state : RedisState
  ops : List RedisOp

/-- `RedisDupeFilter.request_seen`: one `SADD` of the fingerprint against
`self.key`; returns `added == 0`.  No instance field is assigned. -/
def RedisDupeFilter.request_seen (self : RedisDupeFilter) (st : RedisState)
    (fp : String) : RedisSeen :=
  let r := st.sadd self.key fp
  ⟨r.1 == 0, self, r.2, [RedisOp.sadd self.key fp]⟩

/-- `RedisDupeFilter.clear`: `self.server.delete(self.key)`. -/
def RedisDupeFilter.clear (self : RedisDupeFilter) (st : RedisState) : RedisState :=
  st.del self.key

/-- `RedisDupeFilter.close(reason)`: calls `self.clear()`. -/
def RedisDupeFilter.close (self : RedisDupeFilter) (_reason : String)
    (st : RedisState) : RedisState :=
  self.clear st

/-- Result of a successful `RedisDupeFilter.log` call: the updated
instance, the messages logged, and the stats counters incremented. -/
structure RedisLogResult where
  self : RedisDupeFilter
  messages : List String
  statsIncs : List String
  deriving Repr, DecidableEq

/-- `RedisDupeFilter.log(request, spider)`: debug set logs every
duplicate; otherwise the first duplicate is logged and `logdupes` is set
false; in all cases `dupefilter/filtered` is incremented once. -/
def RedisDupeFilter.log (self : RedisDupeFilter) (request : String) :
    Except PyError RedisLogResult := do
  if self.debug then
    let _ ← getAttr self.loggerAttr
    pure ⟨self, [dupMsg request], ["dupefilter/filtered"]⟩
  else if self.logdupes then
    let _ ← getAttr self.loggerAttr
    pure ⟨{ self with logdupes := false }, [dupMsgNoMore request], ["dupefilter/filtered"]⟩
  else
    pure ⟨self, [], ["dupefilter/filtered"]⟩

/-- Results of `n` successive `request_seen` calls for the same
fingerprint on one `RedisDupeFilter`, threading the instance and server
state through. -/
def RedisDupeFilter.seenList : RedisDupeFilter → RedisState → String → Nat → List Bool
  | _, _, _, 0 => []
  | self, st, fp, n + 1 =>
    let r := self.request_seen st fp
    r.seen :: RedisDupeFilter.seenList r.self r.state fp n

/-- Bloom filter instance fields (`BloomFilter.__init__(server, key, bit,
hash_number)` from the spec's §4.3): bit-vector size `2 ^ bit`,
`hash_number` positions per fingerprint, backed by the Redis key. -/
structure BloomFilter where
  server : Nat
  key : String
  bit : Nat
  hash_number : Nat
  deriving Repr, DecidableEq

/-- Modelled from the spec: `bloomfilter.py` is not under src/.  First base
hash of the spec's double-hashing scheme (§4.3 fixes the combining scheme
`pos_i = (h1(fp) + i * h2(fp)) mod 2 ^ bit`, not the base hashes, so a
simple character-sum hash is used). -/
def bloomHashA (fp : String) : Nat :=
  fp.foldl (fun a c => a + c.toNat) 7

/-- Modelled from the spec: second base hash of the double-hashing scheme
(see `bloomHashA`). -/
def bloomHashB (fp : String) : Nat :=
  fp.foldl (fun a c => a * 31 + c.toNat) 0

/-- Modelled from the spec: the `hash_number` bit positions derived for a
fingerprint, `pos_i = (h1(fp) + i * h2(fp)) mod 2 ^ bit` for
`i in 0 .. hash_number - 1` (§4.3). -/
def BloomFilter.positions (bf : BloomFilter) (fp : String) : List Nat :=
  (List.range bf.hash_number).map
    (fun i => (bloomHashA fp + i * bloomHashB fp) % 2 ^ bf.bit)

/-- Modelled from the spec: `BloomFilter.insert(fp)` sets each derived
position's bit to 1 in the backing bit vector (§4.3). -/
def BloomFilter.insert (bf : BloomFilter) (st : RedisState) (fp : String) : RedisState :=
  (bf.positions fp).foldl (fun s p => s.setbit bf.key p) st

/-- Modelled from the spec: `BloomFilter.exists(fp)` is true iff all the
derived positions' bits are set (§4.3). -/
def BloomFilter.existsFp (bf : BloomFilter) (st : RedisState) (fp : String) : Bool :=
  (bf.positions fp).all (fun p => st.getbit bf.key p)

/-- Instance fields of `RedisBloomFilter` as set by `__init__`. -/
structure RedisBloomFilter where
  server : Nat
  key : String
  debug : Bool
  logdupes : Bool
  bit : Nat
  hash_number : Nat
  bf : BloomFilter
  deriving Repr, DecidableEq

/-- `RedisBloomFilter.__init__(server, key, debug, bit, hash_number)`:
`logdupes` starts true and `self.bf` is a `BloomFilter` over the same
server, key, bit and hash count. -/
def RedisBloomFilter.init (server : Nat) (key : String) (debug : Bool)
    (bit : Nat) (hash_number : Nat) : RedisBloomFilter :=
  ⟨server, key, debug, true, bit, hash_number, ⟨server, key, bit, hash_number⟩⟩

/-- `RedisBloomFilter` binds `logger = logger` at class level. -/
def RedisBloomFilter.loggerAttr (_ : RedisBloomFilter) : Option Logger :=
  some moduleLogger

/-- Calls made to the underlying Bloom filter, recorded as a trace so the
check-then-insert call pattern of `RedisBloomFilter.request_seen` can be
stated. -/
inductive BloomOp where
  | bfExists (fp : String)
  | bfInsert (fp : String)
  deriving Repr, DecidableEq

/-- Result of `RedisBloomFilter.request_seen`: the returned boolean, the
instance, the new server state, and the trace of Bloom-filter calls. -/
structure BloomSeen where
  seen : Bool
  self : RedisBloomFilter
  state : RedisState
  ops : List BloomOp

/-- `RedisBloomFilter.request_seen`: `if self.bf.exists(fp): return True`;
otherwise `self.bf.insert(fp)` and return False.  No instance field is
assigned. -/
def RedisBloomFilter.request_seen (self : RedisBloomFilter) (st : RedisState)
    (fp : String) : BloomSeen :=
  if self.bf.existsFp st fp then
    ⟨true, self, st, [BloomOp.bfExists fp]⟩
  else
    ⟨false, self, self.bf.insert st fp, [BloomOp.bfExists fp, BloomOp.bfInsert fp]⟩

/-- `RedisBloomFilter.clear`: `self.server.delete(self.key)`. -/
def RedisBloomFilter.clear (self : RedisBloomFilter) (st : RedisState) : RedisState :=
  st.del self.key

/-- `RedisBloomFilter.close(reason)`: calls `self.clear()`. -/
def RedisBloomFilter.close (self : RedisBloomFilter) (_reason : String)
    (st : RedisState) : RedisState :=
  self.clear st

/-- Result of a successful `RedisBloomFilter.log` call. -/
structure BloomLogResult where
  self : RedisBloomFilter
  messages : List String
  statsIncs : List String
  deriving Repr, DecidableEq

/-- `RedisBloomFilter.log(request, spider)`: same policy as
`RedisDupeFilter.log` but increments `bloomfilter/filtered`. -/
def RedisBloomFilter.log (self : RedisBloomFilter) (request : String) :
    Except PyError BloomLogResult := do
  if self.debug then
    let _ ← getAttr self.loggerAttr
    pure ⟨self, [dupMsg request], ["bloomfilter/filtered"]⟩
  else if self.logdupes then
    let _ ← getAttr self.loggerAttr
    pure ⟨{ self with logdupes := false }, [dupMsgNoMore request], ["bloomfilter/filtered"]⟩
  else
    pure ⟨self, [], ["bloomfilter/filtered"]⟩

/-- A MongoDB collection as the dedup filter uses it: the `fp` field of
each document, in insertion order, plus whether the unique index on `fp`
exists.  Modelled from MongoDB's documented semantics, which the spec's
§2 `UniqueIndexDocStore` interface mirrors. -/
structure MongoCollection where
  docs : List String
  uniqueFp : Bool
  deriving Repr, DecidableEq

/-- State of the Mongo deployment: collections addressed by
(database name, collection name); `none` means the collection does not
exist. -/
structure MongoState where
  colls : String × String → Option MongoCollection

/-- `create_index("fp", unique=True)`: creates the collection if absent
and establishes the unique index on `fp` (idempotent). -/
def MongoState.create_index (st : MongoState) (ns : String × String) : MongoState :=
  ⟨fun n => if n = ns then
      some ⟨((st.colls ns).map MongoCollection.docs).getD [], true⟩
    else st.colls n⟩

/-- `find_one({"fp": fp})`: truthiness of the returned document — false on
a missing collection or absent fingerprint. -/
def MongoState.find_one (st : MongoState) (ns : String × String) (fp : String) : Bool :=
  match st.colls ns with
  | none => false
  | some c => c.docs.contains fp

/-- `insert_one({"fp": fp})`: raises `DuplicateKeyError` iff the unique
index on `fp` exists and the value is already present; inserting into a
missing collection implicitly creates it *without* the unique index. -/
def MongoState.insert_one (st : MongoState) (ns : String × String) (fp : String) :
    Except DuplicateKeyError MongoState :=
  let c := (st.colls ns).getD ⟨[], false⟩
  if c.uniqueFp && c.docs.contains fp then
    Except.error DuplicateKeyError.mk
  else
    Except.ok ⟨fun n => if n = ns then some ⟨c.docs ++ [fp], c.uniqueFp⟩ else st.colls n⟩

/-- Database-level `drop_collection(name)`: removes the collection along
with all its documents and indexes. -/
def MongoState.drop_collection (st : MongoState) (ns : String × String) : MongoState :=
  ⟨fun n => if n = ns then none else st.colls n⟩

/-- The documents of a namespace's collection (empty for a missing
collection); convenience accessor for stating properties. -/
def mongoDocs (st : MongoState) (ns : String × String) : List String :=
  ((st.colls ns).map MongoCollection.docs).getD []

/-- Convenience for stating properties: `insert_one` with the
`DuplicateKeyError` outcome collapsed to "state unchanged". -/
def MongoState.insertD (st : MongoState) (ns : String × String) (fp : String) : MongoState :=
  match st.insert_one ns fp with
  | Except.ok s => s
  | Except.error _ => st

/-- A pymongo `MongoClient` handle; only the host it resolved matters. -/
structure MongoClientH where
  host : String
  deriving Repr, DecidableEq

/-- Modelled from pymongo's documented behavior: `MongoClient(host=None)`
falls back to the default `localhost:27017`; a string host/URI is taken as
given (URI-string validation is not modelled — no claim depends on it). -/
def mongoClient (uri : Option String) : MongoClientH :=
  ⟨uri.getD "localhost:27017"⟩

/-- Instance fields of `MongoDupeFilter` as set by `__init__`.  `host` is
the host the `MongoClient` resolved. -/
structure MongoDupeFilter where
  host : String
  mongo_db : String
  collection : String
  debug : Bool
  logdupes : Bool
  deriving Repr, DecidableEq

/-- The (database, collection) namespace a `MongoDupeFilter` operates on. -/
def MongoDupeFilter.ns (self : MongoDupeFilter) : String × String :=
  (self.mongo_db, self.collection)

/-- Neither `MongoDupeFilter` nor scrapy's `BaseDupeFilter` (its only base
class, which defines no `logger`) binds a `logger` attribute, and
`__init__` does not set one, so attribute lookup of `self.logger` fails. -/
def MongoDupeFilter.loggerAttr (_ : MongoDupeFilter) : Option Logger :=
  none

/-- `MongoDupeFilter.__init__(mongo_uri, db, collection, debug)`: builds
the client (pymongo substitutes its default host for `None`), stores the
fields, sets `logdupes = True`, and runs
`self.mongo[db][collection].create_index("fp", unique=True)`.  pymongo's
`Database` constructor raises `TypeError` when the database name is not a
string, so a missing (`None`) db setting fails here, at construction. -/
def MongoDupeFilter.init (mongo_uri : Option String) (db : Option String)
    (collection : String) (debug : Bool) (st : MongoState) :
    Except PyError (MongoDupeFilter × MongoState) :=
  let client := mongoClient mongo_uri
  match db with
  | none => Except.error PyError.typeError
  | some d =>
    let self : MongoDupeFilter := ⟨client.host, d, collection, debug, true⟩
    Except.ok (self, st.create_index (d, collection))

/-- Scrapy settings as the dupefilter reads them: `get` returns `None`
for a missing key; `getbool` falls back to the given default. -/
structure Settings where
  strs : String → Option String
  bools : String → Option Bool

/-- `settings.get(key)`. -/
def Settings.get (s : Settings) (k : String) : Option String :=
  s.strs k

/-- `settings.getbool(key, default)`. -/
def Settings.getbool (s : Settings) (k : String) (d : Bool) : Bool :=
  (s.bools k).getD d

/-- Modelled from the spec: `defaults.py` is not under src/; the spec's §6
describes the default key namespace template with a timestamp
placeholder, `DUPEFILTER_KEY % {"timestamp": int(time.time())}`. -/
def DUPEFILTER_KEY (timestamp : Nat) : String :=
  "dupefilter:" ++ toString timestamp

/-- `MongoDupeFilter.from_settings(settings)`: reads `MongoFilter_URI` and
`MongoFilter_DB` (both `None` when missing — no validation is performed),
derives the collection name from the timestamp template, reads
`DUPEFILTER_DEBUG` with default `False`, and calls `__init__`. -/
def MongoDupeFilter.from_settings (s : Settings) (timestamp : Nat) (st : MongoState) :
    Except PyError (MongoDupeFilter × MongoState) :=
  MongoDupeFilter.init (s.get "MongoFilter_URI") (s.get "MongoFilter_DB")
    (DUPEFILTER_KEY timestamp) (s.getbool "DUPEFILTER_DEBUG" false) st

/-- `MongoDupeFilter.request_seen` with its two store round trips split at
the point between the `find_one` lookup and the `insert_one`: the lookup
runs against `stL` and the insert against `stI`, so a concurrent writer's
interleaving between the two can be expressed.  The `try/except
DuplicateKeyError: pass` swallows the duplicate-key failure and falls
through to `return False`.  The sequential call is `request_seen` below
with `stL = stI`. -/
def MongoDupeFilter.request_seen_at (self : MongoDupeFilter) (stL stI : MongoState)
    (fp : String) : Bool × MongoState :=
  if stL.find_one self.ns fp then (true, stI)
  else
    match stI.insert_one self.ns fp with
    | Except.ok st2 => (false, st2)
    | Except.error _ => (false, stI)

/-- `MongoDupeFilter.request_seen(request)`: `find_one` by fingerprint,
true if found; otherwise `insert_one` with `DuplicateKeyError` swallowed,
returning false. -/
def MongoDupeFilter.request_seen (self : MongoDupeFilter) (st : MongoState)
    (fp : String) : Bool × MongoState :=
  self.request_seen_at st st fp

/-- `MongoDupeFilter.clear`: the source runs
`self.mongo.drop_collection(self.collection)` on the `MongoClient`
object.  `MongoClient` has no `drop_collection` method; pymongo's
`MongoClient.__getattr__` resolves the unknown attribute to the
`Database` named "drop_collection", and pymongo's `Database.__call__`
unconditionally raises `TypeError` ("'Database' object is not
callable..."), before any command reaches the server.  So `clear` raises
and no collection is dropped. -/
def MongoDupeFilter.clear (_self : MongoDupeFilter) (_st : MongoState) :
    Except PyError MongoState :=
  Except.error PyError.typeError

/-- `MongoDupeFilter.close(reason)`: calls `self.clear()`, whose
`TypeError` propagates. -/
def MongoDupeFilter.close (self : MongoDupeFilter) (_reason : String)
    (st : MongoState) : Except PyError MongoState :=
  self.clear st

/-- Result of a successful `MongoDupeFilter.log` call. -/
structure MongoLogResult where
  self : MongoDupeFilter
  messages : List String
  statsIncs : List String
  deriving Repr, DecidableEq

/-- `MongoDupeFilter.log(request, spider)`: same text as
`RedisDupeFilter.log`, but `self.logger` is an unbound attribute (see
`MongoDupeFilter.loggerAttr`), so both logging branches raise
`AttributeError` before the `dupefilter/filtered` stats increment. -/
def MongoDupeFilter.log (self : MongoDupeFilter) (request : String) :
    Except PyError MongoLogResult := do
  if self.debug then
    let _ ← getAttr self.loggerAttr
    pure ⟨self, [dupMsg request], ["dupefilter/filtered"]⟩
  else if self.logdupes then
    let _ ← getAttr self.loggerAttr
    pure ⟨{ self with logdupes := false }, [dupMsgNoMore request], ["dupefilter/filtered"]⟩
  else
    pure ⟨self, [], ["dupefilter/filtered"]⟩

/-- Results of `n` successive `request_seen` calls for the same
fingerprint on one `MongoDupeFilter`, threading the store state through. -/
def MongoDupeFilter.seenList : MongoDupeFilter → MongoState → String → Nat → List Bool
  | _, _, _, 0 => []
  | self, st, fp, n + 1 =>
    let r := self.request_seen st fp
    r.1 :: MongoDupeFilter.seenList self r.2 fp n

/-- Concrete empty Redis server state, for witnesses. -/
def rstEmpty : RedisState :=
  ⟨fun _ => [], fun _ => []⟩

/-- Concrete empty Mongo deployment, for witnesses. -/
def mongoEmpty : MongoState :=
  ⟨fun _ => none⟩

/-- A concrete `RedisDupeFilter` as `__init__` produces it, for witnesses. -/
def rfSample : RedisDupeFilter :=
  RedisDupeFilter.init 0 "dupefilter:0" false

/-- A concrete `RedisBloomFilter` as `__init__` produces it, for witnesses. -/
def bffSample : RedisBloomFilter :=
  RedisBloomFilter.init 0 "bloom:0" false 10 2

/-- A concrete `MongoDupeFilter` as `__init__` produces it, for witnesses. -/
def mfSample : MongoDupeFilter :=
  ⟨"localhost:27017", "scrapy", "dupefilter:0", false, true⟩

/-- Concrete Redis state in which fingerprint "a" has been recorded both
as a set member and as Bloom bits, for witnesses. -/
def rstSeen : RedisState :=
  ⟨fun _ => ["a"], fun _ => [0, 1, 2, 3]⟩

/-- Concrete Mongo state at the moment of a racing caller's lookup: the
collection exists with its unique index but no documents yet. -/
def stLrace : MongoState :=
  ⟨fun _ => some ⟨[], true⟩⟩

/-- Concrete Mongo state at the moment of the racing caller's insert: the
concurrent winner has already inserted fingerprint "a". -/
def stIrace : MongoState :=
  ⟨fun _ => some ⟨["a"], true⟩⟩

/-- Concrete settings with `MongoFilter_DB` present but `MongoFilter_URI`
missing, for exercising construction under a missing connection URI. -/
def settingsNoUri : Settings :=
  ⟨fun k => if k = "MongoFilter_DB" then some "scrapy" else none, fun _ => none⟩

theorem redis_request_seen_mem (rf : RedisDupeFilter) (st : RedisState) (fp : String)
    (h : fp ∈ st.sets rf.key) :
    rf.request_seen st fp = ⟨true, rf, st, [RedisOp.sadd rf.key fp]⟩ := by
  simp [RedisDupeFilter.request_seen, RedisState.sadd, h]

theorem redis_seenList_mem (rf : RedisDupeFilter) (st : RedisState) (fp : String)
    (n : Nat) (h : fp ∈ st.sets rf.key) :
    RedisDupeFilter.seenList rf st fp n = List.replicate n true := by
  induction n with
  | zero => rfl
  | succ m ih =>
    rw [RedisDupeFilter.seenList]
    rw [redis_request_seen_mem rf st fp h]
    rw [List.replicate_succ]
    simpa using ih

theorem mongo_find_one_contains (st : MongoState) (ns : String × String) (fp : String) :
    st.find_one ns fp = (mongoDocs st ns).contains fp := by
  unfold MongoState.find_one mongoDocs
  cases st.colls ns <;> simp

theorem mongo_request_seen_mem (mf : MongoDupeFilter) (st : MongoState) (fp : String)
    (h : (mongoDocs st mf.ns).contains fp = true) :
    mf.request_seen st fp = (true, st) := by
  unfold MongoDupeFilter.request_seen MongoDupeFilter.request_seen_at
  rw [mongo_find_one_contains, h]
  simp

theorem mongo_seenList_mem (mf : MongoDupeFilter) (st : MongoState) (fp : String)
    (n : Nat) (h : (mongoDocs st mf.ns).contains fp = true) :
    MongoDupeFilter.seenList mf st fp n = List.replicate n true := by
  induction n with
  | zero => rfl
  | succ m ih =>
    rw [MongoDupeFilter.seenList]
    rw [mongo_request_seen_mem mf st fp h]
    rw [List.replicate_succ]
    simpa using ih

theorem mongo_request_seen_fresh (mf : MongoDupeFilter) (st : MongoState) (fp : String)
    (h : mongoDocs st mf.ns = []) :
    (mf.request_seen st fp).1 = false ∧
      mongoDocs (mf.request_seen st fp).2 mf.ns = [fp] := by
  unfold MongoDupeFilter.request_seen MongoDupeFilter.request_seen_at
  rw [mongo_find_one_contains, h]
  unfold MongoState.insert_one
  cases hc : st.colls mf.ns with
  | none =>
    simp [mongoDocs, hc]
  | some c =>
    have hd : c.docs = [] := by
      have := h
      unfold mongoDocs at this
      rw [hc] at this
      simpa using this
    simp [mongoDocs, hc, hd]

/-- C1: for every fingerprint and an exact filter (RedisDupeFilter /
MongoDupeFilter) on a fresh namespace, the first `request_seen` call
returns false and every subsequent call for the same fingerprint on the
same namespace returns true — no false positives or negatives. -/
theorem c1_request_seen_first_false_then_true (rf : RedisDupeFilter) (rst : RedisState)
    (mf : MongoDupeFilter) (mst : MongoState) (fp : String) (n : Nat)
    (hr : rst.sets rf.key = []) (hm : mongoDocs mst mf.ns = []) :
    RedisDupeFilter.seenList rf rst fp (n + 1) = false :: List.replicate n true ∧
    MongoDupeFilter.seenList mf mst fp (n + 1) = false :: List.replicate n true := by
  constructor
  · have hnm : fp ∉ rst.sets rf.key := by
      rw [hr]
      exact List.not_mem_nil fp
    rw [RedisDupeFilter.seenList]
    simp only [RedisDupeFilter.request_seen, RedisState.sadd, if_neg hnm]
    rw [redis_seenList_mem]
    · simp
    · simp
  · obtain ⟨h1, h2⟩ := mongo_request_seen_fresh mf mst fp hm
    simp only [MongoDupeFilter.seenList]
    rw [h1, mongo_seenList_mem mf _ fp n (by rw [h2]; simp)]

/-- Witness for C1 at a concrete fresh namespace and fingerprint. -/
theorem c1_witness :
    rstEmpty.sets rfSample.key = [] ∧ mongoDocs mongoEmpty mfSample.ns = [] ∧
    (RedisDupeFilter.seenList rfSample rstEmpty "a" (2 + 1) =
        false :: List.replicate 2 true ∧
      MongoDupeFilter.seenList mfSample mongoEmpty "a" (2 + 1) =
        false :: List.replicate 2 true) :=
  ⟨rfl, rfl,
    c1_request_seen_first_false_then_true rfSample rstEmpty mfSample mongoEmpty "a" 2 rfl rfl⟩

/-- C2: `RedisDupeFilter.request_seen` issues exactly one atomic `SADD`
against the namespace's set — no separate read plus write — and returns
true iff the add-count of that single operation is zero, i.e. iff the
member was already present. -/
theorem c2_request_seen_single_sadd (rf : RedisDupeFilter) (st : RedisState) (fp : String) :
    (rf.request_seen st fp).ops = [RedisOp.sadd rf.key fp] ∧
    (rf.request_seen st fp).seen = ((st.sadd rf.key fp).1 == 0) ∧
    (rf.request_seen st fp).seen = decide (fp ∈ st.sets rf.key) := by
  refine ⟨rfl, rfl, ?_⟩
  unfold RedisDupeFilter.request_seen RedisState.sadd
  by_cases h : fp ∈ st.sets rf.key
  · simp [h]
  · simp [h]

/-- C3: `RedisBloomFilter.request_seen` first calls `exists` on the Bloom
filter; when that is false it calls `insert` exactly once and returns
false; when it is true it returns true without calling `insert`. -/
theorem c3_bloom_request_seen_check_then_insert (self : RedisBloomFilter)
    (st : RedisState) (fp : String) :
    (self.request_seen st fp).seen = self.bf.existsFp st fp ∧
    (self.request_seen st fp).ops =
      (if self.bf.existsFp st fp then [BloomOp.bfExists fp]
       else [BloomOp.bfExists fp, BloomOp.bfInsert fp]) ∧
    (self.request_seen st fp).state =
      (if self.bf.existsFp st fp then st else self.bf.insert st fp) := by
  unfold RedisBloomFilter.request_seen
  cases h : self.bf.existsFp st fp <;> simp [h]

/-- C4: `MongoDupeFilter.request_seen` first looks up the fingerprint and
returns true when found; on a lookup miss it attempts the insert, and when
that insert loses a race and fails with `DuplicateKeyError` the error is
swallowed locally — never propagated — and the call still returns false,
even though the fingerprint is by then present in the store. -/
theorem c4_mongo_duplicate_race_swallowed (mf : MongoDupeFilter) (stL stI : MongoState)
    (fp : String)
    (hmiss : stL.find_one mf.ns fp = false)
    (hdup : stI.insert_one mf.ns fp = Except.error DuplicateKeyError.mk) :
    mf.request_seen_at stL stI fp = (false, stI) ∧ stI.find_one mf.ns fp = true := by
  constructor
  · simp only [MongoDupeFilter.request_seen_at, hmiss, hdup]
    simp
  · cases hc : stI.colls mf.ns with
    | none =>
      exfalso
      simp only [MongoState.insert_one, hc] at hdup
      simp at hdup
    | some c =>
      simp only [MongoState.insert_one, hc, Option.getD_some] at hdup
      unfold MongoState.find_one
      rw [hc]
      by_cases h2 : (c.uniqueFp && c.docs.contains fp) = true
      · exact ((Bool.and_eq_true _ _).mp h2).2
      · rw [if_neg h2] at hdup
        exact absurd hdup (by simp)

/-- Witness for C4 at a concrete race: the lookup ran on a state without
the fingerprint, the concurrent winner inserted it before our insert. -/
theorem c4_witness :
    stLrace.find_one mfSample.ns "a" = false ∧
    stIrace.insert_one mfSample.ns "a" = Except.error DuplicateKeyError.mk ∧
    (mfSample.request_seen_at stLrace stIrace "a" = (false, stIrace) ∧
      stIrace.find_one mfSample.ns "a" = true) :=
  ⟨rfl, rfl, c4_mongo_duplicate_race_swallowed mfSample stLrace stIrace "a" rfl rfl⟩

theorem bloom_existsFp_del (bf : BloomFilter) (st : RedisState) (fp : String)
    (hn : 0 < bf.hash_number) :
    bf.existsFp (st.del bf.key) fp = false := by
  unfold BloomFilter.existsFp BloomFilter.positions RedisState.getbit RedisState.del
  cases h : bf.hash_number with
  | zero => omega
  | succ m =>
    rw [List.range_succ_eq_map]
    simp

/-- C5: `clear()` fully resets the Redis-backed variants — after `clear`,
`request_seen` returns false for any fingerprint, also on a freshly
constructed instance over the same key — and `close(reason)` just calls
`clear()`; but the Mongo variant's `clear` (and hence `close`) raises
`TypeError` instead of resetting anything, because `drop_collection` is
invoked on the `MongoClient` object. -/
theorem c5_clear_full_reset (rf : RedisDupeFilter) (bff : RedisBloomFilter)
    (mf : MongoDupeFilter) (st st2 : RedisState) (mst : MongoState)
    (fp reason : String) (srv2 : Nat) (dbg2 : Bool)
    (hn : 0 < bff.bf.hash_number) (hb : bff.bf.key = bff.key) :
    (rf.request_seen (rf.clear st) fp).seen = false ∧
    rf.close reason st = rf.clear st ∧
    ((RedisDupeFilter.init srv2 rf.key dbg2).request_seen
        (rf.close reason st) fp).seen = false ∧
    (bff.request_seen (bff.clear st2) fp).seen = false ∧
    bff.close reason st2 = bff.clear st2 ∧
    mf.clear mst = Except.error PyError.typeError ∧
    mf.close reason mst = Except.error PyError.typeError := by
  have h4 : bff.bf.existsFp (bff.clear st2) fp = false := by
    unfold RedisBloomFilter.clear
    rw [← hb]
    exact bloom_existsFp_del bff.bf st2 fp hn
  refine ⟨?_, rfl, ?_, ?_, rfl, rfl, rfl⟩
  · simp [RedisDupeFilter.request_seen, RedisState.sadd, RedisDupeFilter.clear,
      RedisState.del]
  · simp [RedisDupeFilter.request_seen, RedisState.sadd, RedisDupeFilter.clear,
      RedisDupeFilter.close, RedisDupeFilter.init, RedisState.del]
  · simp [RedisBloomFilter.request_seen, h4]

/-- Witness for C5 at concrete instances and a previously-seen state. -/
theorem c5_witness :
    0 < bffSample.bf.hash_number ∧ bffSample.bf.key = bffSample.key ∧
    ((rfSample.request_seen (rfSample.clear rstSeen) "a").seen = false ∧
     rfSample.close "finished" rstSeen = rfSample.clear rstSeen ∧
     ((RedisDupeFilter.init 1 rfSample.key true).request_seen
         (rfSample.close "finished" rstSeen) "a").seen = false ∧
     (bffSample.request_seen (bffSample.clear rstSeen) "a").seen = false ∧
     bffSample.close "finished" rstSeen = bffSample.clear rstSeen ∧
     mfSample.clear stIrace = Except.error PyError.typeError ∧
     mfSample.close "finished" stIrace = Except.error PyError.typeError) :=
  ⟨by decide, rfl,
    c5_clear_full_reset rfSample bffSample mfSample rstSeen rstSeen stIrace
      "a" "finished" 1 true (by decide) rfl⟩

/-- C6: the log policy (debug logs every duplicate, otherwise only the
first, stats always incremented once with a backend-distinguished
counter) holds for the Redis-backed filters, but `MongoDupeFilter.log`
raises `AttributeError` on `self.logger` before the stats increment is
reached, at the default flags and with debug set alike — the code
contradicts the documented always-increment policy. -/
theorem c6_log_stats_for_mongo_unreached :
    MongoDupeFilter.log mfSample "req" = Except.error PyError.attributeError ∧
    MongoDupeFilter.log { mfSample with debug := true } "req" =
      Except.error PyError.attributeError ∧
    RedisDupeFilter.log rfSample "req" =
      Except.ok ⟨{ rfSample with logdupes := false }, [dupMsgNoMore "req"],
        ["dupefilter/filtered"]⟩ ∧
    RedisDupeFilter.log { rfSample with logdupes := false } "req" =
      Except.ok ⟨{ rfSample with logdupes := false }, [], ["dupefilter/filtered"]⟩ ∧
    RedisDupeFilter.log { rfSample with debug := true } "req" =
      Except.ok ⟨{ rfSample with debug := true }, [dupMsg "req"],
        ["dupefilter/filtered"]⟩ ∧
    RedisBloomFilter.log bffSample "req" =
      Except.ok ⟨{ bffSample with logdupes := false }, [dupMsgNoMore "req"],
        ["bloomfilter/filtered"]⟩ :=
  ⟨rfl, rfl, rfl, rfl, rfl, rfl⟩

/-- C7 counterexample: with `MongoFilter_URI` missing from the settings
(and a database name present), `MongoDupeFilter.from_settings` completes
without raising any error, contradicting "raises an error immediately at
construction time". -/
theorem c7_counterexample :
    (MongoDupeFilter.from_settings settingsNoUri 0 mongoEmpty).isOk = true :=
  rfl

/-- C7 (amended): `from_settings` performs no validation of required
settings.  A missing `MongoFilter_URI` is forwarded as `None` to
`MongoClient`, which substitutes its default `localhost:27017` host, so
construction succeeds with no error and the misconfiguration is not
surfaced at construction time. -/
theorem c7_missing_uri_construction_succeeds (s : Settings) (timestamp : Nat)
    (st : MongoState) (db : String)
    (hu : s.get "MongoFilter_URI" = none)
    (hd : s.get "MongoFilter_DB" = some db) :
    MongoDupeFilter.from_settings s timestamp st =
      Except.ok
        (⟨"localhost:27017", db, DUPEFILTER_KEY timestamp,
            s.getbool "DUPEFILTER_DEBUG" false, true⟩,
          st.create_index (db, DUPEFILTER_KEY timestamp)) := by
  unfold MongoDupeFilter.from_settings MongoDupeFilter.init
  rw [hu, hd]
  rfl

/-- Witness for C7's amended statement at the concrete settings that lack
the connection URI. -/
theorem c7_witness :
    settingsNoUri.get "MongoFilter_URI" = none ∧
    settingsNoUri.get "MongoFilter_DB" = some "scrapy" ∧
    MongoDupeFilter.from_settings settingsNoUri 0 mongoEmpty =
      Except.ok
        (⟨"localhost:27017", "scrapy", DUPEFILTER_KEY 0,
            settingsNoUri.getbool "DUPEFILTER_DEBUG" false, true⟩,
          mongoEmpty.create_index ("scrapy", DUPEFILTER_KEY 0)) :=
  ⟨rfl, rfl,
    c7_missing_uri_construction_succeeds settingsNoUri 0 mongoEmpty "scrapy" rfl rfl⟩

/-- C8 counterexample: on the state produced by `__init__` followed by one
successful insert, `clear()` does not drop the collection — it raises
`TypeError` — and a duplicate insert still raises `DuplicateKeyError`, so
the claimed post-`clear` behavior (index gone, duplicates accepted) is
false on the code. -/
theorem c8_counterexample :
    MongoDupeFilter.clear mfSample
        ((mongoEmpty.create_index mfSample.ns).insertD mfSample.ns "a") =
      Except.error PyError.typeError ∧
    ((mongoEmpty.create_index mfSample.ns).insertD mfSample.ns "a").insert_one
        mfSample.ns "a" = Except.error DuplicateKeyError.mk :=
  ⟨rfl, rfl⟩

/-- C8 (amended): the unique index on "fp" is created solely in
`__init__` (a bare insert never creates it), and `clear()` never drops
the collection: it raises `TypeError` (pymongo resolves
`client.drop_collection` to a `Database`, whose call raises), so the
index persists and duplicate fingerprints keep raising
`DuplicateKeyError`. -/
theorem c8_unique_index_persists (mf : MongoDupeFilter) (st : MongoState) (fp : String) :
    mf.clear st = Except.error PyError.typeError ∧
    (mongoEmpty.create_index mf.ns).colls mf.ns = some ⟨[], true⟩ ∧
    ((mongoEmpty.create_index mf.ns).insertD mf.ns fp).insert_one mf.ns fp =
      Except.error DuplicateKeyError.mk ∧
    (mongoEmpty.insertD mf.ns fp).colls mf.ns = some ⟨[fp], false⟩ := by
  refine ⟨rfl, ?_, ?_, ?_⟩
  · simp [MongoState.create_index, mongoEmpty]
  · simp [MongoState.create_index, MongoState.insertD, MongoState.insert_one, mongoEmpty]
  · simp [MongoState.insertD, MongoState.insert_one, mongoEmpty]

/-- C9: every `MongoDupeFilter.log` call that reaches a logging branch
(debug set, or first duplicate with debug unset) reads `self.logger`,
which is bound neither on the class nor by construction, so it fails with
`AttributeError` and the stats increment after it is never reached (no
`MongoLogResult` is produced) — unlike the Redis-backed filters, whose
class-level logger makes every `log` call succeed. -/
theorem c9_mongo_log_attribute_error (mf : MongoDupeFilter) (request : String)
    (h : mf.debug = true ∨ mf.logdupes = true) :
    mf.log request = Except.error PyError.attributeError ∧
    mf.loggerAttr = none ∧
    (∀ rf : RedisDupeFilter, (rf.log request).isOk = true) ∧
    (∀ bff : RedisBloomFilter, (bff.log request).isOk = true) := by
  refine ⟨?_, rfl, ?_, ?_⟩
  · unfold MongoDupeFilter.log
    cases hd : mf.debug with
    | true => simp [MongoDupeFilter.loggerAttr, getAttr]
    | false =>
      have hl : mf.logdupes = true := by
        rcases h with h | h
        · rw [hd] at h
          exact absurd h (by simp)
        · exact h
      simp [hl, MongoDupeFilter.loggerAttr, getAttr]
  · intro rf
    unfold RedisDupeFilter.log
    cases hd : rf.debug <;> cases hl : rf.logdupes <;>
      simp [RedisDupeFilter.loggerAttr, getAttr, Except.isOk, Except.toBool, pure,
        Except.pure, bind, Except.bind]
  · intro bff
    unfold RedisBloomFilter.log
    cases hd : bff.debug <;> cases hl : bff.logdupes <;>
      simp [RedisBloomFilter.loggerAttr, getAttr, Except.isOk, Except.toBool, pure,
        Except.pure, bind, Except.bind]

/-- Witness for C9 at a concrete filter in debug mode. -/
theorem c9_witness :
    (({ mfSample with debug := true } : MongoDupeFilter).debug = true ∨
      ({ mfSample with debug := true } : MongoDupeFilter).logdupes = true) ∧
    (({ mfSample with debug := true } : MongoDupeFilter).log "req" =
        Except.error PyError.attributeError ∧
      ({ mfSample with debug := true } : MongoDupeFilter).loggerAttr = none ∧
      (∀ rf : RedisDupeFilter, (rf.log "req").isOk = true) ∧
      (∀ bff : RedisBloomFilter, (bff.log "req").isOk = true)) :=
  ⟨Or.inl rfl,
    c9_mongo_log_attribute_error { mfSample with debug := true } "req" (Or.inl rfl)⟩

/-- C10: `request_seen` leaves every instance field unchanged on the
Redis-backed filters (all mutation lives in the backing store), and the
only instance field `log` ever mutates is `logdupes` — the server handle,
key, debug flag and the Bloom parameters survive `log` unchanged. -/
theorem c10_request_seen_frame (rf : RedisDupeFilter) (bff : RedisBloomFilter)
    (st st2 : RedisState) (fp request : String) :
    (rf.request_seen st fp).self = rf ∧
    (bff.request_seen st2 fp).self = bff ∧
    (rf.log request).map RedisLogResult.self =
      Except.ok (if rf.debug then rf else { rf with logdupes := false }) ∧
    (bff.log request).map BloomLogResult.self =
      Except.ok (if bff.debug then bff else { bff with logdupes := false }) := by
  refine ⟨rfl, ?_, ?_, ?_⟩
  · unfold RedisBloomFilter.request_seen
    cases h : bff.bf.existsFp st2 fp <;> simp [h]
  · cases rf with
    | mk s k d l => cases d <;> cases l <;> rfl
  · cases bff with
    | mk s k d l b hn bf => cases d <;> cases l <;> rfl
